import Mathlib

/-!
Shallow embedding of `src/main.py` (the TeveClub automation script).

The script is a linear workflow: start an HTTP session, POST a login form,
classify the response, feed the pet (GET the pet page, compute the maximum
selectable option for the "kaja"/"pia" controls, possibly POST a feed form),
teach the pet (POST a fixed form), log out, close the session, and report
failures by email.  The embedding below models

  * the response classifiers (`_parse_login_status`, `_parse_teach_success`,
    `_parse_feed_success`) as pure functions on the response body text,
    with regex search over the fixed patterns realised as substring search
    (the patterns are literal except for the one `.*` gap, modelled
    explicitly);
  * `Teve._max_option` over an abstract parse of the HTML (the document is
    abstracted to the list of its attribute-named elements together with
    the texts of their `option` descendants, in document order — exactly
    the data `soup.find(attrs=...)` / `find_all("option")` consume);
  * the network, the HTML parser and the mailer as an environment `Env` of
    oracles (one entry per call site, in program order), so that one run of
    the script is the deterministic function `mainRun : Env → trace × outcome`;
    every request attempt, session close and successfully sent email is an
    `Event` in the trace, and the outcome is `some e` exactly when an
    exception with text `e` escapes the process.

Python exceptions are modelled as `Except String` / `Option String` values
(the string is the exception text); `requests.Response.raise_for_status`
follows the requests library semantics (raise exactly for status 400–599).
`int(...)` is modelled for optionally-signed decimal literals, which covers
every input the claims quantify over.
-/

/-- Decision that the pattern `p` matches at the head of `t` (character-wise
comparison, as a regex engine does at one candidate position). -/
def isPrefixL : List Char → List Char → Bool
  | [], _ => true
  | _ :: _, [] => false
  | a :: as, b :: bs => a == b && isPrefixL as bs

/-- Model of `re.search` for a literal pattern: scan every position of
`text` (including the final empty suffix) for a match of `pat`. -/
def hasSubstrL : List Char → List Char → Bool
  | [], pat => isPrefixL pat []
  | c :: t, pat => isPrefixL pat (c :: t) || hasSubstrL t pat

/-- String-level literal-pattern search, the form the classifiers use. -/
def strHasSubstr (text pat : String) : Bool :=
  hasSubstrL text.data pat.data

/-- Fixed phrase of `_parse_login_status` (`r"Valami baj van!"`, a regex with
no metacharacters, hence a literal substring search). -/
def loginFailurePattern : String := "Valami baj van!"

/-- Model of `_parse_login_status`: `True` for logged in, i.e. the failure
phrase is absent from the page text. -/
def _parse_login_status (text : String) : Bool :=
  !(strHasSubstr text loginFailurePattern)

/-- Fixed phrase of `_parse_teach_success` (no regex metacharacters). -/
def teachSuccessPattern : String := "A tevédet ma már tanítottad"

/-- Model of `_parse_teach_success`: the Python function returns the
`re.search` match object, whose truth value (the value the caller branches
on) is modelled as this Bool. -/
def _parse_teach_success (text : String) : Bool :=
  strHasSubstr text teachSuccessPattern

/-- First literal piece of the `_parse_feed_success` pattern
`r"Adok neki .* napra elég ennivalót"`. -/
def feedPatternStart : String := "Adok neki "

/-- Second literal piece of the `_parse_feed_success` pattern. -/
def feedPatternEnd : String := " napra elég ennivalót"

/-- Match of `.* napra elég ennivalót` at the current position: either the
closing literal matches here, or the gap consumes one more character, which
`.` forbids to be a newline. -/
def feedEndAfterGap : List Char → Bool
  | [] => isPrefixL feedPatternEnd.data []
  | c :: t => isPrefixL feedPatternEnd.data (c :: t) || (!(c == '\n') && feedEndAfterGap t)

/-- Search for `Adok neki .* napra elég ennivalót` anywhere in the text. -/
def feedPatternSearch : List Char → Bool
  | [] => false
  | c :: t =>
    (isPrefixL feedPatternStart.data (c :: t) &&
      feedEndAfterGap ((c :: t).drop feedPatternStart.data.length)) ||
    feedPatternSearch t

/-- Model of `_parse_feed_success`: feeding succeeded when the
still-possible-to-feed offer is absent. -/
def _parse_feed_success (text : String) : Bool :=
  !(feedPatternSearch text.data)

/-- Decimal digit value of a character, as Python `int` consumes digits. -/
def digitVal (c : Char) : Option Nat :=
  if 48 ≤ c.toNat && c.toNat ≤ 57 then some (c.toNat - 48) else none

/-- Accumulating decimal parse of a digit run; fails at the first
non-digit, like `int(text)` raising `ValueError`. -/
def natOfDigits : List Char → Nat → Option Nat
  | [], acc => some acc
  | c :: t, acc =>
    match digitVal c with
    | some d => natOfDigits t (acc * 10 + d)
    | none => none

/-- Model of Python `int(text)` on an optionally-signed decimal literal
(the shape of every option text the script consumes); `none` models the
`ValueError` raise. -/
def pyInt (s : String) : Option Int :=
  match s.data with
  | [] => none
  | c :: t =>
    if c = '-' then
      match t with
      | [] => none
      | _ :: _ => (natOfDigits t 0).map (fun n => -(n : Int))
    else (natOfDigits s.data 0).map (fun n => (n : Int))

/-- Left-to-right conversion of the option texts, modelling the list
comprehension `[int(option.text) for option in options.find_all("option")]`;
`none` models a `ValueError` escaping the comprehension. -/
def intOptions : List String → Option (List Int)
  | [] => some []
  | s :: rest =>
    match pyInt s, intOptions rest with
    | some v, some vs => some (v :: vs)
    | _, _ => none

/-- Model of Python `max(list)`: `none` models the `ValueError` on an empty
sequence, otherwise fold `max` from the first element. -/
def listMax : List Int → Option Int
  | [] => none
  | x :: xs => some (xs.foldl max x)

/-- Exception text of Python `max()` on an empty sequence. -/
def emptyMaxError : String := "max() arg is an empty sequence"

/-- Exception text of Python `int()` on a non-literal. -/
def intParseError : String := "invalid literal for int() with base 10"

/-- Abstraction of one attribute-named element of the parsed page: its
`name` attribute value and the texts of its `option` descendants, in
document order. -/
structure HtmlControl where
  name : String
  optionTexts : List String
deriving DecidableEq

/-- Abstraction of a `BeautifulSoup` document: the attribute-named elements
in document order (the only data `_max_option` consumes). -/
def Soup : Type := List HtmlControl

/-- Model of `soup.find(attrs=\x7b"name": name\x7d)`: first element of the
document carrying that `name` attribute, if any. -/
def soupFind (soup : Soup) (nm : String) : Option HtmlControl :=
  List.find? (fun c => c.name = nm) soup

/-- Model of `Teve._max_option`: `0` when no control with the given name
exists, otherwise the maximum of the integer conversions of the option
texts; an `error` models the exception raised by `int(...)` on a bad
literal or by `max(...)` on an empty option list. -/
def Teve._max_option (soup : Soup) (nm : String) : Except String Int :=
  match soupFind soup nm with
  | none => .ok 0
  | some c =>
    match intOptions c.optionTexts with
    | none => .error intParseError
    | some vals =>
      match listMax vals with
      | none => .error emptyMaxError
      | some m => .ok m

/-- HTTP response as the script consumes it: final status code and body
text. -/
structure Response where
  status : Nat
  text : String
deriving DecidableEq

/-- Outcome the network delivers for one request: either an exception below
the HTTP layer (connection error, with its exception text), or a final
response. -/
inductive ReqResult where
  | netError (msg : String)
  | reply (resp : Response)

/-- Semantics of `requests.Response.raise_for_status` (from the requests
library): an `HTTPError` is raised exactly for final status 400–599. -/
def raiseForStatus (status : Nat) : Bool :=
  400 ≤ status && status < 600

/-- Abbreviated text of the `HTTPError` exception for a status code. -/
def statusErrorText (status : Nat) : String :=
  toString status ++ (" Error")

/-- Fixed server URL of `TeveClubLink`. -/
def TeveClubLink.SERVER_URL : String := "https://teveclub.hu"

/-- Sub-link of the pet page. -/
def TeveClubLink.TEVE_LINK : String := "myteve.pet"

/-- Sub-link of the teaching page. -/
def TeveClubLink.TEACH_LINK : String := "tanit.pet"

/-- Sub-link of the logout page. -/
def TeveClubLink.LOGOUT_LINK : String := "logout.pet"

/-- URL the request targets: the server URL itself for `link = none`,
otherwise `SERVER_URL/link`. -/
def TeveClubLink.linkUrl (link : Option String) : String :=
  match link with
  | none => TeveClubLink.SERVER_URL
  | some l => TeveClubLink.SERVER_URL ++ ("/") ++ l

/-- Core of `TeveClubLink.request`: deliver the network outcome, then
`response.raise_for_status()`; return the response when no exception is
raised. -/
def TeveClubLink.request (r : ReqResult) : Except String Response :=
  match r with
  | .netError m => .error m
  | .reply resp =>
    if raiseForStatus resp.status then .error (statusErrorText resp.status)
    else .ok resp

/-- Observable events of one run: session lifecycle, every request attempt
(method, sub-link, optional form data) and every successfully sent email
(content and subject). -/
inductive Event where
  | sessionStart : Event
  | sessionClose : Event
  | request (method : String) (link : Option String) (data : Option (List (String × String))) : Event
  | mail (content : String) (subject : String) : Event
deriving DecidableEq

/-- Environment of one run: the configured credentials, the HTML parser,
and the oracle answer for each network call site and each mailer call site,
in program order.  A `some m` mail entry means the SMTP send raises an
exception with text `m`. -/
structure Env where
  teveName : String
  tevePassword : String
  parseSoup : String → Soup
  loginReq : ReqResult
  loginMailErr : Option String
  petReq : ReqResult
  feedReq : ReqResult
  feedMailErr : Option String
  teachReq : ReqResult
  teachMailErr : Option String
  logoutReq : ReqResult
  topMailErr : Option String

/-- Number of occurrences of an event in a trace. -/
def countEvent (t : List Event) (e : Event) : Nat :=
  List.countP (fun x => decide (x = e)) t

/-- Email body as `_mail_error` composes it with `set_content`: the error
message alone when no page is attached, otherwise the message, a blank
line, and the page text. -/
def mailContent (errorMessage : String) (page : Option String) : String :=
  match page with
  | none => errorMessage
  | some text => errorMessage ++ ("\n\n") ++ text

/-- Fixed part of `Teve.LOGIN_FORM` (the coordinate fields and the button
value). -/
def Teve.LOGIN_FORM : List (String × String) :=
  [(("x"), ("26")), (("y"), ("22")), (("login"), ("Gyere!"))]

/-- Name field key of the login form. -/
def Teve.NAME_FIELD : String := "tevenev"

/-- Password field key of the login form. -/
def Teve.PASSWORD_FIELD : String := "pass"

/-- Login form after `__enter__` fills in the credentials (Python dict
insertion order: the fixed fields, then name, then password). -/
def Teve.loginFormWith (nm password : String) : List (String × String) :=
  Teve.LOGIN_FORM ++ [(Teve.NAME_FIELD, nm), (Teve.PASSWORD_FIELD, password)]

/-- Form data of `Teve.tanit`. -/
def Teve.tanitForm : List (String × String) :=
  [(("farmdoit"), ("tanit")), (("learn"), ("Tanulj teve!"))]

/-- Feed form of `Teve.etet` for the two computed maxima (`str(...)` of
each, plus the fixed submit flag). -/
def Teve.feedForm (maxKaja maxPia : Int) : List (String × String) :=
  [(("kaja"), toString maxKaja), (("pia"), toString maxPia), (("etet"), ("Mehet!"))]

/-- The logout request event (`GET` on the logout sub-link). -/
def logoutEvent : Event :=
  Event.request ("get") (some TeveClubLink.LOGOUT_LINK) none

/-- Model of `Teve.__exit__` given the current `logged_in` flag: when the
flag is set, attempt the logout `GET` (an exception there skips the rest of
the method body, in particular `close_session`); then `close_session`. -/
def Teve.exitStep (env : Env) (loggedIn : Bool) : List Event × Option String :=
  if loggedIn then
    match TeveClubLink.request env.logoutReq with
    | .error e => ([logoutEvent], some e)
    | .ok _ => ([logoutEvent, Event.sessionClose], none)
  else ([Event.sessionClose], none)

/-- Model of `Teve.__enter__`: start the session, POST the login form,
run `_ensure_login` (a mail attempt when the classifier reports failure),
set `logged_in`; any exception triggers `self.__exit__` (with `logged_in`
still false) followed by a re-raise.  Returns the trace, the `logged_in`
flag, and the escaping exception if any. -/
def Teve.enterStep (env : Env) : List Event × Bool × Option String :=
  let ev0 := Event.sessionStart
  let ev1 := Event.request ("post") none (some (Teve.loginFormWith env.teveName env.tevePassword))
  match TeveClubLink.request env.loginReq with
  | .error e => ([ev0, ev1] ++ (Teve.exitStep env false).1, false, some e)
  | .ok resp =>
    if _parse_login_status resp.text then ([ev0, ev1], true, none)
    else
      match env.loginMailErr with
      | none =>
        ([ev0, ev1,
          Event.mail (mailContent ("Nem sikerült bejelentkezni!?") (some resp.text))
            ("Automatikus belépési hiba!!!")], true, none)
      | some m => ([ev0, ev1] ++ (Teve.exitStep env false).1, false, some m)

/-- Model of `Teve.etet`: GET the pet page, compute the two maxima (their
exceptions propagate), skip the POST when both are zero, otherwise POST the
feed form and mail on classifier failure. -/
def Teve.etet (env : Env) : List Event × Option String :=
  let ev1 := Event.request ("get") (some TeveClubLink.TEVE_LINK) none
  match TeveClubLink.request env.petReq with
  | .error e => ([ev1], some e)
  | .ok resp =>
    let soup := env.parseSoup resp.text
    match Teve._max_option soup ("kaja") with
    | .error e => ([ev1], some e)
    | .ok maxKaja =>
      match Teve._max_option soup ("pia") with
      | .error e => ([ev1], some e)
      | .ok maxPia =>
        if maxKaja = 0 ∧ maxPia = 0 then ([ev1], none)
        else
          let ev2 := Event.request ("post") (some TeveClubLink.TEVE_LINK)
            (some (Teve.feedForm maxKaja maxPia))
          match TeveClubLink.request env.feedReq with
          | .error e => ([ev1, ev2], some e)
          | .ok resp2 =>
            if _parse_feed_success resp2.text then ([ev1, ev2], none)
            else
              match env.feedMailErr with
              | some m => ([ev1, ev2], some m)
              | none =>
                ([ev1, ev2,
                  Event.mail (mailContent ("Nem sikerült az etetés!") (some resp2.text))
                    ("Automatikus etetési kalamajka!")], none)

/-- Model of `Teve.tanit`: POST the fixed teaching form and mail on
classifier failure. -/
def Teve.tanit (env : Env) : List Event × Option String :=
  let ev := Event.request ("post") (some TeveClubLink.TEACH_LINK) (some Teve.tanitForm)
  match TeveClubLink.request env.teachReq with
  | .error e => ([ev], some e)
  | .ok resp =>
    if _parse_teach_success resp.text then ([ev], none)
    else
      match env.teachMailErr with
      | some m => ([ev], some m)
      | none =>
        ([ev,
          Event.mail (mailContent ("Nem sikerült a tanítás!") (some resp.text))
            ("Automatikus tanítási fennforgattyú!")], none)

/-- The `with teve:` block of `__main__`: `__enter__`, then `etet` and
`tanit`, with `__exit__` run on every path on which `__enter__` succeeded
(an exception raised by `__exit__` replaces the body's exception, per
Python semantics). -/
def withBlock (env : Env) : List Event × Option String :=
  match Teve.enterStep env with
  | (t1, _, some e) => (t1, some e)
  | (t1, flag, none) =>
    match Teve.etet env with
    | (t2, some e) =>
      let x := Teve.exitStep env flag
      (t1 ++ t2 ++ x.1, some (x.2.getD e))
    | (t2, none) =>
      match Teve.tanit env with
      | (t3, some e) =>
        let x := Teve.exitStep env flag
        (t1 ++ t2 ++ t3 ++ x.1, some (x.2.getD e))
      | (t3, none) =>
        let x := Teve.exitStep env flag
        (t1 ++ t2 ++ t3 ++ x.1, x.2)

/-- Fixed body of the top-level error email (the `error_message` argument
of `_mail_error`; the exception text goes into the subject argument). -/
def topMailText : String := "Ismeretlen fatálas hiba történt!!!"

/-- Fixed prefix of the top-level error email subject; the exception text
is appended by `format`. -/
def topSubjStart : String := "Elpusztult az egész!!! ÁÁÁÁ!!!\n\n"

/-- The `__main__` try/except: run the with-block; on an escaping
exception, send the top-level email (when the mailer succeeds) and
re-raise; a mailer exception replaces the original one. -/
def mainRun (env : Env) : List Event × Option String :=
  match withBlock env with
  | (t, none) => (t, none)
  | (t, some e) =>
    match env.topMailErr with
    | none => (t ++ [Event.mail topMailText (topSubjStart ++ e)], some e)
    | some m => (t, some m)

/-- The login step of `__enter__` completes without an exception (and the
`logged_in` flag is therefore set) exactly when the login request returns
and either the classifier reports success or the failure-notification mail
succeeds.  Per the workflow design, a classifier-reported failure is
non-fatal: the run is still marked logged in. -/
def loginStepCompleted (env : Env) : Bool :=
  match TeveClubLink.request env.loginReq with
  | .error _ => false
  | .ok resp => _parse_login_status resp.text || env.loginMailErr.isNone

/-- The request oracle entry yields a response that survives
`raise_for_status`. -/
def reqOk (r : ReqResult) : Bool :=
  match TeveClubLink.request r with
  | .ok _ => true
  | .error _ => false

/-- A 2xx (success) final status, the class the specification speaks
about. -/
def is2xx (status : Nat) : Bool :=
  200 ≤ status && status < 300

/-- An event that is a `POST` request. -/
def isPostEvent (e : Event) : Bool :=
  match e with
  | .request m _ _ => m == ("post")
  | _ => false

/-- An event that is a sent email. -/
def isMailEvent (e : Event) : Bool :=
  match e with
  | .mail _ _ => true
  | _ => false

/-- Characterisation of position-wise matching: the pattern matches at the
head exactly when the text extends it. -/
theorem isPrefixL_iff (p t : List Char) : isPrefixL p t = true ↔ ∃ r, t = p ++ r := by
  induction p generalizing t with
  | nil =>
    simp only [isPrefixL, List.nil_append, true_iff]
    exact ⟨t, rfl⟩
  | cons a as ih =>
    cases t with
    | nil => simp [isPrefixL]
    | cons b bs =>
      simp only [isPrefixL, Bool.and_eq_true, beq_iff_eq, ih bs, List.cons_append,
        List.cons.injEq]
      constructor
      · rintro ⟨hab, r, hr⟩
        exact ⟨r, hab.symm, hr⟩
      · rintro ⟨r, hba, hr⟩
        exact ⟨hba.symm, r, hr⟩

/-- Characterisation of the `re.search`-style scan: it reports a match
exactly when the pattern occurs somewhere in the text. -/
theorem hasSubstrL_iff (t p : List Char) :
    hasSubstrL t p = true ↔ ∃ pre post, t = pre ++ p ++ post := by
  induction t with
  | nil =>
    simp only [hasSubstrL, isPrefixL_iff]
    constructor
    · rintro ⟨r, hr⟩
      rcases List.append_eq_nil.mp hr.symm with ⟨hp, hrr⟩
      exact ⟨[], [], by simp [hp]⟩
    · rintro ⟨pre, post, h⟩
      rcases List.append_eq_nil.mp h.symm with ⟨h1, h2⟩
      rcases List.append_eq_nil.mp h1 with ⟨h3, h4⟩
      exact ⟨[], by simp [h4]⟩
  | cons c t ih =>
    simp only [hasSubstrL, Bool.or_eq_true, isPrefixL_iff, ih]
    constructor
    · rintro (⟨r, hr⟩ | ⟨pre, post, h⟩)
      · exact ⟨[], r, by simpa using hr⟩
      · exact ⟨c :: pre, post, by simp [h]⟩
    · rintro ⟨pre, post, h⟩
      cases pre with
      | nil =>
        left
        exact ⟨post, by simpa using h⟩
      | cons d pre =>
        right
        have h2 : t = pre ++ p ++ post := by
          simp only [List.cons_append, List.cons.injEq] at h
          exact h.2
        exact ⟨pre, post, h2⟩

/-- String-level form of the scan characterisation. -/
theorem strHasSubstr_iff (text pat : String) :
    strHasSubstr text pat = true ↔ ∃ pre post : String, text = pre ++ pat ++ post := by
  constructor
  · intro h
    rcases (hasSubstrL_iff text.data pat.data).mp h with ⟨pre, post, hd⟩
    refine ⟨String.mk pre, String.mk post, String.ext ?_⟩
    simpa using hd
  · rintro ⟨pre, post, h⟩
    apply (hasSubstrL_iff text.data pat.data).mpr
    refine ⟨pre.data, post.data, ?_⟩
    rw [h]
    simp

/-- The seed of the running-maximum fold is a lower bound of the result. -/
theorem le_foldl_max (l : List Int) (a : Int) : a ≤ l.foldl max a := by
  induction l generalizing a with
  | nil => simp
  | cons b t ih =>
    simp only [List.foldl_cons]
    exact le_trans (le_max_left a b) (ih (max a b))

/-- The running-maximum fold returns its seed or a list element. -/
theorem foldl_max_mem (l : List Int) (a : Int) : l.foldl max a = a ∨ l.foldl max a ∈ l := by
  induction l generalizing a with
  | nil => left; rfl
  | cons b t ih =>
    simp only [List.foldl_cons]
    rcases ih (max a b) with h | h
    · rcases max_choice a b with hm | hm
      · left; rw [h, hm]
      · right; rw [h, hm]; exact List.mem_cons_self b t
    · right; exact List.mem_cons_of_mem b h

/-- The running-maximum fold is an upper bound of the list elements. -/
theorem foldl_max_ub (l : List Int) (a : Int) : ∀ x ∈ l, x ≤ l.foldl max a := by
  induction l generalizing a with
  | nil => intro x hx; cases hx
  | cons b t ih =>
    intro x hx
    simp only [List.foldl_cons]
    rcases List.mem_cons.mp hx with rfl | hx
    · exact le_trans (le_max_right a x) (le_foldl_max t (max a x))
    · exact ih (max a b) x hx

/-- Specification of `listMax`: a returned value is an element and an upper
bound, i.e. the maximum of the list. -/
theorem listMax_spec (l : List Int) (m : Int) (h : listMax l = some m) :
    m ∈ l ∧ ∀ x ∈ l, x ≤ m := by
  cases l with
  | nil => cases h
  | cons x xs =>
    have hm : m = xs.foldl max x := by
      simpa [listMax] using h.symm
    constructor
    · rcases foldl_max_mem xs x with h1 | h1
      · rw [hm, h1]; exact List.mem_cons_self x xs
      · rw [hm]; exact List.mem_cons_of_mem x h1
    · intro y hy
      rcases List.mem_cons.mp hy with rfl | hy
      · rw [hm]; exact le_foldl_max xs y
      · rw [hm]; exact foldl_max_ub xs x y hy

/-- Claim C8: for every response body text, the login-status classifier
returns `false` exactly when the text contains the fixed Hungarian failure
phrase, and `true` when the phrase is absent.  (The classifier is a pure
function of the text in this embedding.) -/
theorem c8_login_classifier (text : String) :
    (_parse_login_status text = false ↔
      ∃ pre post : String, text = pre ++ loginFailurePattern ++ post) ∧
    (_parse_login_status text = true ↔
      ¬ ∃ pre post : String, text = pre ++ loginFailurePattern ++ post) := by
  have h := strHasSubstr_iff text loginFailurePattern
  unfold _parse_login_status
  cases hb : strHasSubstr text loginFailurePattern with
  | false =>
    rw [hb] at h
    simp only [Bool.false_eq_true, false_iff] at h
    simp [h]
  | true =>
    rw [hb] at h
    simp only [true_iff] at h
    simp [h]

/-- Witness for C8 at a concrete text containing the failure phrase. -/
theorem c8_witness : _parse_login_status ("Hiba: Valami baj van! Szia") = false :=
  ((c8_login_classifier ("Hiba: Valami baj van! Szia")).1).mpr
    ⟨("Hiba: "), (" Szia"), by decide⟩

/-- Claim C9: for every response body text, the teaching classifier is true
exactly when the text contains the fixed already-taught-today phrase (the
Python function returns the `re.search` result, whose truth value the
caller branches on; that truth value is the Bool modelled here). -/
theorem c9_teach_classifier (text : String) :
    _parse_teach_success text = true ↔
      ∃ pre post : String, text = pre ++ teachSuccessPattern ++ post := by
  unfold _parse_teach_success
  exact strHasSubstr_iff text teachSuccessPattern

/-- Witness for C9 at a concrete text containing the phrase. -/
theorem c9_witness : _parse_teach_success ("Ma: A tevédet ma már tanítottad!") = true :=
  (c9_teach_classifier ("Ma: A tevédet ma már tanítottad!")).mpr
    ⟨("Ma: "), ("!"), by decide⟩

/-- Claim C3: for a parsed fragment, the computed maximum selectable option
value of a named control equals the maximum of the option texts converted
to integers (an element that bounds all elements); an absent control yields
`0`. -/
theorem c3_max_option (soup : Soup) (nm : String) :
    (soupFind soup nm = none → Teve._max_option soup nm = .ok 0) ∧
    (∀ c vals, soupFind soup nm = some c → intOptions c.optionTexts = some vals →
      vals ≠ [] →
      ∃ m, Teve._max_option soup nm = .ok m ∧ m ∈ vals ∧ ∀ x ∈ vals, x ≤ m) := by
  constructor
  · intro h
    unfold Teve._max_option
    rw [h]
  · intro c vals hf hv hne
    unfold Teve._max_option
    rw [hf]
    dsimp only
    rw [hv]
    cases vals with
    | nil => exact absurd rfl hne
    | cons v vs =>
      have hl : listMax (v :: vs) = some (vs.foldl max v) := rfl
      exact ⟨vs.foldl max v, rfl, listMax_spec (v :: vs) (vs.foldl max v) hl⟩

/-- Witness for C3: both the absent-control case and a three-option
control, evaluated concretely. -/
theorem c3_witness :
    Teve._max_option [] ("kaja") = .ok 0 ∧
    ∃ m, Teve._max_option [⟨("kaja"), [("1"), ("5"), ("3")]⟩] ("kaja") = .ok m ∧
      m ∈ [(1 : Int), 5, 3] ∧ ∀ x ∈ [(1 : Int), 5, 3], x ≤ m :=
  ⟨(c3_max_option [] ("kaja")).1 rfl,
   (c3_max_option [⟨("kaja"), [("1"), ("5"), ("3")]⟩] ("kaja")).2
     ⟨("kaja"), [("1"), ("5"), ("3")]⟩ [1, 5, 3] rfl (by decide) (by decide)⟩

/-- Counterexample to claim C4 as stated: a final status of 304 is not 2xx,
yet the session wrapper returns the response instead of raising
(`raise_for_status` raises only for 400–599). -/
theorem c4_counterexample :
    is2xx 304 = false ∧
    TeveClubLink.request (ReqResult.reply ⟨304, ("old")⟩) = .ok ⟨304, ("old")⟩ :=
  ⟨rfl, rfl⟩

/-- Claim C4 (amended): the wrapper returns the response exactly when the
final status is outside 400–599 (in particular for every 2xx status, but
also for 1xx/3xx), raises exactly for statuses 400–599, and propagates
network-level exceptions. -/
theorem c4_request_status (resp : Response) :
    (TeveClubLink.request (ReqResult.reply resp) = .ok resp ↔
      ¬ (400 ≤ resp.status ∧ resp.status < 600)) ∧
    ((∃ e, TeveClubLink.request (ReqResult.reply resp) = .error e) ↔
      (400 ≤ resp.status ∧ resp.status < 600)) ∧
    (∀ m, TeveClubLink.request (ReqResult.netError m) = .error m) := by
  unfold TeveClubLink.request raiseForStatus
  by_cases h : 400 ≤ resp.status ∧ resp.status < 600
  · simp [h.1, h.2, h]
  · rcases not_and_or.mp h with h1 | h1 <;> simp [h1, h]

/-- Witness for C4 (amended) at a concrete 2xx status. -/
theorem c4_witness :
    TeveClubLink.request (ReqResult.reply ⟨200, ("ok")⟩) = .ok ⟨200, ("ok")⟩ :=
  ((c4_request_status ⟨200, ("ok")⟩).1).mpr (by decide)

/-- Counting over an empty trace. -/
theorem countEvent_nil (e : Event) : countEvent [] e = 0 := rfl

/-- Counting distributes over trace concatenation. -/
theorem countEvent_append (a b : List Event) (e : Event) :
    countEvent (a ++ b) e = countEvent a e + countEvent b e :=
  List.countP_append (fun x => decide (x = e)) a b

/-- Counting over a cons cell. -/
theorem countEvent_cons (x : Event) (t : List Event) (e : Event) :
    countEvent (x :: t) e = countEvent t e + (if x = e then 1 else 0) := by
  simp [countEvent, List.countP_cons]

/-- The feed step never issues the logout request and never closes the
session. -/
theorem etet_counts (env : Env) :
    countEvent (Teve.etet env).1 logoutEvent = 0 ∧
    countEvent (Teve.etet env).1 Event.sessionClose = 0 := by
  constructor
  all_goals (
    simp only [Teve.etet];
    repeat' split;
    all_goals simp [countEvent_cons, countEvent_nil, logoutEvent, TeveClubLink.TEVE_LINK,
      TeveClubLink.LOGOUT_LINK])

/-- The teach step never issues the logout request, never closes the
session, and always attempts the teaching POST. -/
theorem tanit_counts (env : Env) :
    countEvent (Teve.tanit env).1 logoutEvent = 0 ∧
    countEvent (Teve.tanit env).1 Event.sessionClose = 0 ∧
    Event.request ("post") (some TeveClubLink.TEACH_LINK) (some Teve.tanitForm) ∈
      (Teve.tanit env).1 := by
  refine ⟨?_, ?_, ?_⟩
  all_goals (
    simp only [Teve.tanit];
    repeat' split;
    all_goals simp [countEvent_cons, countEvent_nil, logoutEvent, TeveClubLink.TEACH_LINK,
      TeveClubLink.LOGOUT_LINK])

/-- Characterisation of `__exit__`: the logout request is attempted exactly
when the `logged_in` flag is set, and the session is closed except when the
flag is set and the logout request raises (no `finally` guards the close
call). -/
theorem exit_counts (env : Env) (b : Bool) :
    countEvent (Teve.exitStep env b).1 logoutEvent = (if b then 1 else 0) ∧
    countEvent (Teve.exitStep env b).1 Event.sessionClose =
      (if b && !(reqOk env.logoutReq) then 0 else 1) := by
  constructor
  all_goals (
    simp only [Teve.exitStep, reqOk];
    repeat' split;
    all_goals simp_all [countEvent_cons, countEvent_nil, logoutEvent])

/-- Characterisation of `__enter__`: the `logged_in` flag equals
`loginStepCompleted`, the entry raises exactly when the flag stays false,
no logout request is issued, and the session is closed during entry exactly
when the entry fails (via the internal `__exit__` call). -/
theorem enterStep_spec (env : Env) :
    (Teve.enterStep env).2.1 = loginStepCompleted env ∧
    ((Teve.enterStep env).2.2 = none ↔ loginStepCompleted env = true) ∧
    countEvent (Teve.enterStep env).1 logoutEvent = 0 ∧
    countEvent (Teve.enterStep env).1 Event.sessionClose =
      (if loginStepCompleted env then 0 else 1) := by
  refine ⟨?_, ?_, ?_, ?_⟩
  all_goals (
    simp only [Teve.enterStep, loginStepCompleted, Teve.exitStep];
    repeat' split;
    all_goals simp_all [countEvent_cons, countEvent_nil, countEvent_append, logoutEvent])

/-- A sent email is never the logout request. -/
theorem countEvent_mail_logout (c s : String) :
    countEvent [Event.mail c s] logoutEvent = 0 := by
  simp [countEvent_cons, countEvent_nil, logoutEvent]

/-- A sent email is never the session close. -/
theorem countEvent_mail_close (c s : String) :
    countEvent [Event.mail c s] Event.sessionClose = 0 := by
  simp [countEvent_cons, countEvent_nil]

/-- Whole-run counting: the logout request is issued exactly when the login
step completed, and the session close happens exactly once unless the
logout request raises (then zero times). -/
theorem mainRun_counts (env : Env) :
    countEvent (mainRun env).1 logoutEvent = (if loginStepCompleted env then 1 else 0) ∧
    countEvent (mainRun env).1 Event.sessionClose =
      (if loginStepCompleted env && !(reqOk env.logoutReq) then 0 else 1) := by
  obtain ⟨hflag, hexc, hlog1, hclose1⟩ := enterStep_spec env
  obtain ⟨hlog2, hclose2⟩ := etet_counts env
  obtain ⟨hlog3, hclose3, _⟩ := tanit_counts env
  rcases hE : Teve.enterStep env with ⟨t1, flag, exc⟩
  rw [hE] at hflag hexc hlog1 hclose1
  dsimp only at hflag hexc hlog1 hclose1
  cases exc with
  | some e =>
    have hcomp : loginStepCompleted env = false := by
      simpa using hexc
    simp only [mainRun, withBlock, hE]
    cases hm : env.topMailErr with
    | none =>
      simp [hcomp, countEvent_append, countEvent_mail_logout, countEvent_mail_close,
        hlog1, hclose1]
    | some m =>
      simp [hcomp, hlog1, hclose1]
  | none =>
    have hcomp : loginStepCompleted env = true := hexc.mp rfl
    have hflag2 : flag = true := by rw [hflag, hcomp]
    subst hflag2
    obtain ⟨hlog4, hclose4⟩ := exit_counts env true
    simp only [mainRun, withBlock, hE]
    rcases hQ : Teve.etet env with ⟨t2, o2⟩
    rw [hQ] at hlog2 hclose2
    dsimp only at hlog2 hclose2
    cases o2 with
    | some e =>
      rcases hX : Teve.exitStep env true with ⟨t4, o4⟩
      rw [hX] at hlog4 hclose4
      dsimp only at hlog4 hclose4
      cases hm : env.topMailErr with
      | none =>
        simp [hcomp, countEvent_append, countEvent_mail_logout, countEvent_mail_close,
          hlog1, hclose1, hlog2, hclose2, hlog4, hclose4]
      | some m =>
        simp [hcomp, countEvent_append, hlog1, hclose1, hlog2, hclose2, hlog4, hclose4]
    | none =>
      rcases hR : Teve.tanit env with ⟨t3, o3⟩
      rw [hR] at hlog3 hclose3
      dsimp only at hlog3 hclose3
      rcases hX : Teve.exitStep env true with ⟨t4, o4⟩
      rw [hX] at hlog4 hclose4
      dsimp only at hlog4 hclose4
      cases o3 with
      | some e =>
        cases hm : env.topMailErr with
        | none =>
          simp [hcomp, countEvent_append, countEvent_mail_logout, countEvent_mail_close,
            hlog1, hclose1, hlog2, hclose2, hlog3, hclose3, hlog4, hclose4]
        | some m =>
          simp [hcomp, countEvent_append, hlog1, hclose1, hlog2, hclose2, hlog3, hclose3,
            hlog4, hclose4]
      | none =>
        cases o4 with
        | some e4 =>
          cases hm : env.topMailErr with
          | none =>
            simp [hcomp, countEvent_append, countEvent_mail_logout, countEvent_mail_close,
              hlog1, hclose1, hlog2, hclose2, hlog3, hclose3, hlog4, hclose4]
          | some m =>
            simp [hcomp, countEvent_append, hlog1, hclose1, hlog2, hclose2, hlog3, hclose3,
              hlog4, hclose4]
        | none =>
          simp [hcomp, countEvent_append, hlog1, hclose1, hlog2, hclose2, hlog3, hclose3,
            hlog4, hclose4]

/-- Claim C1: the logout GET is issued (exactly once) if and only if the
login step previously succeeded, i.e. the entry completed and set the
`logged_in` flag; otherwise no logout request is made.  (Per the workflow
design, a login reported as failed by the classifier is non-fatal and still
marks the run logged in when the notification mail succeeds.) -/
theorem c1_logout_iff_login (env : Env) :
    countEvent (mainRun env).1 logoutEvent =
      (if loginStepCompleted env then 1 else 0) :=
  (mainRun_counts env).1

/-- Base test environment: valid login, empty pet page (no option groups),
teaching reported as done, logout succeeds, all mail sends succeed. -/
def envBase : Env where
  teveName := "Macska"
  tevePassword := "titok"
  parseSoup := fun _ => []
  loginReq := ReqResult.reply ⟨200, ("udv")⟩
  loginMailErr := none
  petReq := ReqResult.reply ⟨200, ("lap")⟩
  feedReq := ReqResult.reply ⟨200, ("")⟩
  feedMailErr := none
  teachReq := ReqResult.reply ⟨200, ("A tevédet ma már tanítottad")⟩
  teachMailErr := none
  logoutReq := ReqResult.reply ⟨200, ("szia")⟩
  topMailErr := none

/-- Environment in which only the logout GET fails (HTTP 500). -/
def envC2 : Env := { envBase with logoutReq := ReqResult.reply ⟨500, ("hiba")⟩ }

/-- Environment in which the teaching POST raises a network error with
exception text `boom`. -/
def envC5 : Env := { envBase with teachReq := ReqResult.netError ("boom") }

/-- Environment in which the login response carries the failure phrase. -/
def envC6 : Env := { envBase with loginReq := ReqResult.reply ⟨200, ("Valami baj van!")⟩ }

/-- Environment whose pet page has a food control with one option `2`. -/
def envC7 : Env := { envBase with parseSoup := fun _ => [⟨("kaja"), [("2")]⟩] }

/-- Environment whose pet page has a food control with no options. -/
def envC10 : Env := { envBase with parseSoup := fun _ => [⟨("kaja"), []⟩] }

/-- Counterexample to claim C2 as stated: in a run in which everything
succeeds except that the logout GET raises an HTTP error, the session is
never closed (count 0, not 1) — `__exit__` has no `finally` around
`close_session`. -/
theorem c2_counterexample :
    countEvent (mainRun envC2).1 Event.sessionClose = 0 ∧
    Event.sessionStart ∈ (mainRun envC2).1 := by
  decide

/-- Claim C2 (amended): the session close is invoked exactly once on every
exit path, except that it is not invoked at all when the login step
completed and the logout request then raises (the `__exit__` body has no
finally-equivalent protecting `close_session`). -/
theorem c2_close_count (env : Env) :
    countEvent (mainRun env).1 Event.sessionClose =
      (if loginStepCompleted env && !(reqOk env.logoutReq) then 0 else 1) :=
  (mainRun_counts env).2

/-- Counterexample to claim C5 as stated: with an exception of text `boom`
escaping the teach step, exactly one email is sent, but its content is the
fixed message, which does not embed the exception text (the text goes into
the subject instead). -/
theorem c5_counterexample :
    (mainRun envC5).2 = some ("boom") ∧
    List.filter isMailEvent (mainRun envC5).1 =
      [Event.mail topMailText (topSubjStart ++ ("boom"))] ∧
    ¬ ∃ pre post : String, topMailText = pre ++ ("boom") ++ post := by
  refine ⟨by decide, by decide, ?_⟩
  rintro ⟨pre, post, h⟩
  have hc : strHasSubstr topMailText ("boom") = true :=
    (strHasSubstr_iff topMailText ("boom")).mpr ⟨pre, post, h⟩
  exact absurd hc (by decide)

/-- Claim C5 (amended): an exception escaping the with-block is caught once
at the top level; when the notifier succeeds, exactly one additional email
is sent, whose subject (not content) embeds the exception text, and the
exception is then re-raised as the process outcome. -/
theorem c5_top_handler (env : Env) (e : String)
    (h1 : (withBlock env).2 = some e) (h2 : env.topMailErr = none) :
    (mainRun env).1 = (withBlock env).1 ++ [Event.mail topMailText (topSubjStart ++ e)] ∧
    (mainRun env).2 = some e ∧
    List.countP isMailEvent (mainRun env).1 =
      List.countP isMailEvent (withBlock env).1 + 1 ∧
    (∃ pre post : String, topSubjStart ++ e = pre ++ e ++ post) := by
  rcases hW : withBlock env with ⟨t, o⟩
  rw [hW] at h1
  dsimp only at h1
  subst h1
  simp only [mainRun, hW, h2]
  refine ⟨by trivial, by trivial, ?_, ⟨topSubjStart, (""), ?_⟩⟩
  · simp [List.countP_append, isMailEvent]
  · simp

/-- Witness for C5 (amended) in the concrete teach-failure environment. -/
theorem c5_witness :
    (mainRun envC5).1 = (withBlock envC5).1 ++
      [Event.mail topMailText (topSubjStart ++ ("boom"))] ∧
    (mainRun envC5).2 = some ("boom") ∧
    List.countP isMailEvent (mainRun envC5).1 =
      List.countP isMailEvent (withBlock envC5).1 + 1 ∧
    (∃ pre post : String, topSubjStart ++ ("boom") = pre ++ ("boom") ++ post) :=
  c5_top_handler envC5 ("boom") (by decide) rfl

/-- Claim C6: when the login classifier reports failure and the
notification mail succeeds, the workflow does not abort: entry sends one
email whose content is the failure message followed by the response body,
the entry completes without exception, the run continues into the feed
step, and (when the feed step raises no exception) the teach POST is also
issued. -/
theorem c6_login_failure_continues (env : Env) (resp : Response)
    (h1 : TeveClubLink.request env.loginReq = .ok resp)
    (h2 : _parse_login_status resp.text = false)
    (h3 : env.loginMailErr = none) :
    (Teve.enterStep env).1 =
      [Event.sessionStart,
       Event.request ("post") none (some (Teve.loginFormWith env.teveName env.tevePassword)),
       Event.mail (("Nem sikerült bejelentkezni!?") ++ ("\n\n") ++ resp.text)
         ("Automatikus belépési hiba!!!")] ∧
    (Teve.enterStep env).2.2 = none ∧
    (∃ rest, (mainRun env).1 = (Teve.enterStep env).1 ++ ((Teve.etet env).1 ++ rest)) ∧
    ((Teve.etet env).2 = none →
      Event.request ("post") (some TeveClubLink.TEACH_LINK) (some Teve.tanitForm) ∈
        (mainRun env).1) := by
  have hE : Teve.enterStep env =
      ([Event.sessionStart,
        Event.request ("post") none (some (Teve.loginFormWith env.teveName env.tevePassword)),
        Event.mail (("Nem sikerült bejelentkezni!?") ++ ("\n\n") ++ resp.text)
          ("Automatikus belépési hiba!!!")], true, none) := by
    simp only [Teve.enterStep]
    rw [h1]
    dsimp only
    simp [h2, h3, mailContent]
  have hrest : ∃ rest,
      (mainRun env).1 = (Teve.enterStep env).1 ++ ((Teve.etet env).1 ++ rest) ∧
      ((Teve.etet env).2 = none →
        Event.request ("post") (some TeveClubLink.TEACH_LINK) (some Teve.tanitForm) ∈ rest) := by
    obtain ⟨-, -, hmem⟩ := tanit_counts env
    rcases hQ : Teve.etet env with ⟨t2, o2⟩
    rcases hR : Teve.tanit env with ⟨t3, o3⟩
    rw [hR] at hmem
    dsimp only at hmem
    rcases hX : Teve.exitStep env true with ⟨t4, o4⟩
    cases o2 with
    | some e =>
      cases hm : env.topMailErr with
      | none =>
        refine ⟨t4 ++ [Event.mail topMailText (topSubjStart ++ (o4.getD e))], ?_, ?_⟩
        · simp [mainRun, withBlock, hE, hQ, hX, hm]
        · intro h
          simp at h
      | some m =>
        refine ⟨t4, ?_, ?_⟩
        · simp [mainRun, withBlock, hE, hQ, hX, hm]
        · intro h
          simp at h
    | none =>
      cases o3 with
      | some e =>
        cases hm : env.topMailErr with
        | none =>
          refine ⟨t3 ++ (t4 ++ [Event.mail topMailText (topSubjStart ++ (o4.getD e))]),
            ?_, fun _ => List.mem_append_left _ hmem⟩
          simp [mainRun, withBlock, hE, hQ, hR, hX, hm]
        | some m =>
          refine ⟨t3 ++ t4, ?_, fun _ => List.mem_append_left _ hmem⟩
          simp [mainRun, withBlock, hE, hQ, hR, hX, hm]
      | none =>
        cases o4 with
        | some e4 =>
          cases hm : env.topMailErr with
          | none =>
            refine ⟨t3 ++ (t4 ++ [Event.mail topMailText (topSubjStart ++ e4)]),
              ?_, fun _ => List.mem_append_left _ hmem⟩
            simp [mainRun, withBlock, hE, hQ, hR, hX, hm]
          | some m =>
            refine ⟨t3 ++ t4, ?_, fun _ => List.mem_append_left _ hmem⟩
            simp [mainRun, withBlock, hE, hQ, hR, hX, hm]
        | none =>
          refine ⟨t3 ++ t4, ?_, fun _ => List.mem_append_left _ hmem⟩
          simp [mainRun, withBlock, hE, hQ, hR, hX]
  obtain ⟨rest, hT, hMem⟩ := hrest
  refine ⟨by rw [hE], by rw [hE], ⟨rest, hT⟩, ?_⟩
  intro h
  rw [hT]
  exact List.mem_append_right _ (List.mem_append_right _ (hMem h))

/-- Witness for C6 in the concrete login-failure environment. -/
theorem c6_witness :
    (Teve.enterStep envC6).1 =
      [Event.sessionStart,
       Event.request ("post") none (some (Teve.loginFormWith envC6.teveName envC6.tevePassword)),
       Event.mail (("Nem sikerült bejelentkezni!?") ++ ("\n\n") ++ ("Valami baj van!"))
         ("Automatikus belépési hiba!!!")] ∧
    (Teve.enterStep envC6).2.2 = none ∧
    (∃ rest, (mainRun envC6).1 = (Teve.enterStep envC6).1 ++ ((Teve.etet envC6).1 ++ rest)) ∧
    ((Teve.etet envC6).2 = none →
      Event.request ("post") (some TeveClubLink.TEACH_LINK) (some Teve.tanitForm) ∈
        (mainRun envC6).1) :=
  c6_login_failure_continues envC6 ⟨200, ("Valami baj van!")⟩ rfl (by decide) rfl

/-- Claim C7: when the two maxima are computed, the feed step issues no
POST at all when both are zero, and otherwise exactly one POST, carrying
the feed form with the two maxima and the fixed submit flag. -/
theorem c7_feed_post (env : Env) (resp : Response) (maxKaja maxPia : Int)
    (h1 : TeveClubLink.request env.petReq = .ok resp)
    (h2 : Teve._max_option (env.parseSoup resp.text) ("kaja") = .ok maxKaja)
    (h3 : Teve._max_option (env.parseSoup resp.text) ("pia") = .ok maxPia) :
    List.countP isPostEvent (Teve.etet env).1 =
      (if maxKaja = 0 ∧ maxPia = 0 then 0 else 1) ∧
    (¬ (maxKaja = 0 ∧ maxPia = 0) →
      Event.request ("post") (some TeveClubLink.TEVE_LINK) (some (Teve.feedForm maxKaja maxPia)) ∈
        (Teve.etet env).1) := by
  simp only [Teve.etet]
  rw [h1]
  dsimp only
  rw [h2]
  dsimp only
  rw [h3]
  dsimp only
  by_cases hz : maxKaja = 0 ∧ maxPia = 0
  · rw [if_pos hz]
    simp [hz, isPostEvent, List.countP_cons]
  · rw [if_neg hz]
    cases hf : TeveClubLink.request env.feedReq with
    | error e =>
      simp [hz, isPostEvent, List.countP_cons, beq_iff_eq]
    | ok resp2 =>
      cases hs : _parse_feed_success resp2.text with
      | true =>
        simp [hz, hs, isPostEvent, List.countP_cons, beq_iff_eq]
      | false =>
        cases hm : env.feedMailErr with
        | some m =>
          simp [hz, hs, hm, isPostEvent, List.countP_cons, beq_iff_eq]
        | none =>
          simp [hz, hs, hm, isPostEvent, List.countP_cons, beq_iff_eq]

/-- Witness for C7 in the concrete environment with a food option of 2:
exactly one feed POST, carrying the computed maxima. -/
theorem c7_witness :
    List.countP isPostEvent (Teve.etet envC7).1 =
      (if (2 : Int) = 0 ∧ (0 : Int) = 0 then 0 else 1) ∧
    (¬ ((2 : Int) = 0 ∧ (0 : Int) = 0) →
      Event.request ("post") (some TeveClubLink.TEVE_LINK) (some (Teve.feedForm 2 0)) ∈
        (Teve.etet envC7).1) :=
  c7_feed_post envC7 ⟨200, ("lap")⟩ 2 0 rfl rfl rfl

/-- Claim C10: a present control with zero option elements makes the
maximum computation raise (`max()` on an empty sequence), so the feed step
aborts with that exception after its initial GET, issuing no feed POST. -/
theorem c10_empty_options (env : Env) (resp : Response) (c : HtmlControl)
    (h1 : TeveClubLink.request env.petReq = .ok resp)
    (h2 : (soupFind (env.parseSoup resp.text) ("kaja") = some c ∧ c.optionTexts = []) ∨
      ((∃ k, Teve._max_option (env.parseSoup resp.text) ("kaja") = .ok k) ∧
        soupFind (env.parseSoup resp.text) ("pia") = some c ∧ c.optionTexts = [])) :
    (Teve.etet env).2 = some emptyMaxError ∧
    (Teve.etet env).1 = [Event.request ("get") (some TeveClubLink.TEVE_LINK) none] := by
  have hmo : ∀ nm, soupFind (env.parseSoup resp.text) nm = some c → c.optionTexts = [] →
      Teve._max_option (env.parseSoup resp.text) nm = .error emptyMaxError := by
    intro nm hf he
    unfold Teve._max_option
    rw [hf]
    dsimp only
    rw [he]
    rfl
  simp only [Teve.etet]
  rw [h1]
  dsimp only
  rcases h2 with ⟨hf, he⟩ | ⟨⟨k, hk⟩, hf, he⟩
  · rw [hmo ("kaja") hf he]
    exact ⟨rfl, rfl⟩
  · rw [hk]
    dsimp only
    rw [hmo ("pia") hf he]
    exact ⟨rfl, rfl⟩

/-- Witness for C10 in the concrete environment whose food control has no
options. -/
theorem c10_witness :
    (Teve.etet envC10).2 = some emptyMaxError ∧
    (Teve.etet envC10).1 = [Event.request ("get") (some TeveClubLink.TEVE_LINK) none] :=
  c10_empty_options envC10 ⟨200, ("lap")⟩ ⟨("kaja"), []⟩ rfl (Or.inl ⟨rfl, rfl⟩)

/-- Witness for C1 in the base environment: the login step completes and
the logout GET count is governed by the theorem. -/
theorem c1_witness :
    countEvent (mainRun envBase).1 logoutEvent =
      (if loginStepCompleted envBase then 1 else 0) ∧
    loginStepCompleted envBase = true :=
  ⟨c1_logout_iff_login envBase, by decide⟩

/-- Witness for C2 (amended) in the logout-failure environment: the
exception condition holds there, so the close count is zero. -/
theorem c2_witness :
    countEvent (mainRun envC2).1 Event.sessionClose =
      (if loginStepCompleted envC2 && !(reqOk envC2.logoutReq) then 0 else 1) ∧
    (loginStepCompleted envC2 && !(reqOk envC2.logoutReq)) = true :=
  ⟨c2_close_count envC2, by decide⟩
